import Mathlib

/-!
Verification of the shared assertion/test-harness protocol of the
`oscomp-test-listline` repository, as implemented in
`src/apps/libc/c/fscanf/fscanf.c`, `src/apps/libc/c/utimensat/utimensat.c`
and `src/apps/dynamic/test.h`.

The embedding models:
* `t_printf` (fscanf.c lines 14-34, utimensat.c lines 20-40): the bounded
  diagnostic formatter with its 512-byte buffer and `...\n` truncation;
* the global flag `t_status` (fscanf.c line 12, utimensat.c line 18) and
  the byte stream written to file descriptor 1, as a state record `HSt`;
* the `TEST` / `TEST_S` / `TESTVAL` assertion forms, and the straight-line
  control flow of the two `main` functions.
-/

namespace LibcTest

/-- Buffer capacity of `t_printf`: `char buf[512]` (fscanf.c line 17,
utimensat.c line 23). -/
def BUFSIZE : Nat := 512

/-- Bytes that one `t_printf` call writes to file descriptor 1, as a function
of the fully rendered message.  `none` models a negative `vsnprintf` return
(the `n < 0` branch, which writes 0 bytes); `some msg` models a successful
render of `msg` (so `vsnprintf` returned `msg.length`).  When
`msg.length >= 512` the code sets `n = 512` and overwrites
`buf[508..511]` with `'.', '.', '.', '\n'`; `vsnprintf` had filled
`buf[0..510]` with the first 511 message bytes, so the written bytes are the
first 508 message bytes followed by `"...\n"` (fscanf.c lines 22-33). -/
def t_printf_bytes : Option (List Char) → List Char
  | none => []
  | some msg =>
    if msg.length < BUFSIZE then msg
    else msg.take (BUFSIZE - 4) ++ ['.', '.', '.', '\n']

/-- Process-local harness state: the sticky flag `t_status` (initialized to 0)
and the bytes written so far to file descriptor 1. -/
structure HSt where
  t_status : Nat
  out : List Char
deriving DecidableEq

/-- State at program start: `int t_status = 0;` (fscanf.c line 12,
utimensat.c line 18) and nothing written yet. -/
def initSt : HSt := ⟨0, []⟩

/-- Effect of one `t_printf` call on the harness state: `t_status = 1` is the
first statement of the function body (fscanf.c line 20, utimensat.c line 26),
before `vsnprintf` runs, and then the formatted bytes are written to file
descriptor 1. -/
def t_printf (render : Option (List Char)) (s : HSt) : HSt :=
  { t_status := 1, out := s.out ++ t_printf_bytes render }

/-- Rendered message of `t_error(...)`: the macro prefixes the
`"<file>:<line>"` location of the call site and `": "` to the message
(`#define t_error(...) t_printf(T_LOC1(__LINE__) ": " __VA_ARGS__)`,
fscanf.c line 10, utimensat.c line 15). -/
def t_error_msg (loc body : List Char) : List Char :=
  loc ++ (':' :: ' ' :: body)

/-- One `t_error` call: renders the location-prefixed message through
`t_printf`. -/
def t_error (loc body : List Char) (s : HSt) : HSt :=
  t_printf (some (t_error_msg loc body)) s

/-- The assertion skeleton shared by the `TEST` macros
(`((c) ? 1 : (t_error(...),0))`, utimensat.c line 42; fscanf.c lines 36-38
has the same shape after the condition `((r) = (f)) == (x)` is computed):
a true condition yields 1 and leaves the state alone; a false condition
calls `t_error` with the rendered context and yields 0. -/
def TEST (cond : Bool) (loc body : List Char) (s : HSt) : Bool × HSt :=
  if cond then (true, s) else (false, t_error loc body s)

/-- Rendered context of a failed `TEST_S`: `"[%s] != [%s] (%s)\n"` filled with
the two strings and the note passed by the caller (fscanf.c line 42). -/
def test_s_msg (sv xv m : List Char) : List Char :=
  "[".data ++ sv ++ "] != [".data ++ xv ++ "] (".data ++ m ++ ")\n".data

/-- The string-equality assertion `TEST_S(s, x, m)`
(fscanf.c lines 40-42): `!strcmp(s, x)` on NUL-free C strings is exact
byte-sequence equality; on mismatch `t_error` emits both strings in
brackets. -/
def TEST_S (sv xv m loc : List Char) (st : HSt) : Bool × HSt :=
  TEST (decide (sv = xv)) loc (test_s_msg sv xv m) st

/-- The relational operators used with `TESTVAL` in utimensat.c
(`==` and `>=`). -/
inductive RelOp
  | eq
  | ge

/-- Truth of a relational operator on two scalars. -/
def RelOp.holds : RelOp → Int → Int → Bool
  | RelOp.eq, v, x => decide (v = x)
  | RelOp.ge, v, x => decide (x ≤ v)

/-- Source text of a relational operator. -/
def RelOp.text : RelOp → List Char
  | RelOp.eq => "==".data
  | RelOp.ge => ">=".data

/-- Decimal rendering of a scalar, as `%jd` prints it. -/
def intText (v : Int) : List Char := (toString v).data

/-- Rendered context of a failed `TESTVAL(v, op, x)`: the stringized condition
`#c` (the source text `v op x`), then `" failed: "`, then the actual value
formatted with `%jd` (`#define TESTVAL(v,op,x) TEST(v op x, "%jd\n",
(intmax_t)(v))`, utimensat.c line 43, expanded through the
`#c" failed: " __VA_ARGS__` of `TEST`, line 42). -/
def testval_msg (vText : List Char) (op : RelOp) (xText : List Char)
    (v : Int) : List Char :=
  vText ++ (' ' :: op.text) ++ (' ' :: xText) ++ " failed: ".data ++
    intText v ++ ['\n']

/-- The value assertion `TESTVAL(v, op, x)` (utimensat.c line 43).  `vText`
and `xText` are the source texts of the two argument expressions, which the
preprocessor stringizes into the diagnostic; `v` and `x` are their runtime
values. -/
def TESTVAL (vText : List Char) (v : Int) (op : RelOp) (xText : List Char)
    (x : Int) (loc : List Char) (s : HSt) : Bool × HSt :=
  TEST (op.holds v x) loc (testval_msg vText op xText v) s

/-- One assertion of a straight-line harness run: its (already evaluated)
condition, its call-site location tag and its rendered context message. -/
structure Asrt where
  cond : Bool
  loc : List Char
  body : List Char
deriving DecidableEq

/-- Effect of one assertion on the harness state (the `TEST` skeleton,
discarding the boolean result as the straight-line programs do). -/
def step (s : HSt) (a : Asrt) : HSt :=
  (TEST a.cond a.loc a.body s).2

/-- Run a sequence of assertions in program order. -/
def runTests (l : List Asrt) (s : HSt) : HSt :=
  l.foldl step s

/-- Number of failed assertions in a sequence. -/
def countFails (l : List Asrt) : Nat :=
  (l.filter (fun a => !a.cond)).length

/-- Exit status of a straight-line harness program that runs `l` and ends
with `return t_status` (fscanf.c line 162, utimensat.c line 104). -/
def mainExit (l : List Asrt) : Nat :=
  (runTests l initSt).t_status

/-- Bytes a failed assertion appends to file descriptor 1. -/
def diagOf (a : Asrt) : List Char :=
  t_printf_bytes (some (t_error_msg a.loc a.body))

/-- Number of newline-terminated lines in an output byte stream. -/
def countLines (out : List Char) : Nat :=
  (out.filter (fun c => c == '\n')).length

/-- Boolean test that `pat` occurs as a contiguous segment of `l`. -/
def containsSeg (pat l : List Char) : Bool :=
  (List.range (l.length + 1)).any (fun i => decide ((l.drop i).take pat.length = pat))

/-- Sticky-status update of one assertion with condition `c`: a pass leaves
`t_status` alone, a failure drives it to 1 through `t_error`. -/
def bstat (c : Bool) (st : Nat) : Nat :=
  if c then st else 1

/-- Sticky-status update of a batch of assertions with conditions `cs`. -/
def batch (cs : List Bool) (st : Nat) : Nat :=
  if cs.all (fun b => b) then st else 1

/-- Environment of one run of the `main` of fscanf.c (lines 57-163): which
resource acquisitions succeed, and the outcomes of the remaining
assertions in execution order (entries past the end of `conds` count as
passes). -/
structure FscanfEnv where
  pipeOk : Bool
  fdopenOk : Bool
  temp1Ok : Bool
  temp2Ok : Bool
  temp3Ok : Bool
  temp4Ok : Bool
  temp5Ok : Bool
  conds : List Bool
deriving DecidableEq

/-- Observable control flow of one run of the `main` of fscanf.c. -/
structure FscanfRes where
  ranPipeSection : Bool
  ranTempOuter : List Bool
  ranTempInner : List Bool
  reachedEnd : Bool
  t_status : Nat
  exit : Nat
deriving DecidableEq

/-- Control flow of the `main` of fscanf.c (lines 57-163).  The `TEST` on
`pipe` (line 65) and on `fdopen` (line 66) come first; when `fdopen`
returned NULL the program closes both pipe ends and returns 1 at line 71
without reaching anything further.  Otherwise the pipe section runs its 9
assertions (lines 74-83), and then each of the five temp-file blocks runs
its own `TEST` on `writetemp` (lines 88, 99, 113, 137, 150) followed — only
when the temp file was obtained, under the `if (f)` guard — by its inner
assertions (5, 8, 16, 6 and 5 of them), before the final `printf` and
`return t_status` (lines 161-162). -/
def fscanf_main (e : FscanfEnv) : FscanfRes :=
  let st1 := bstat e.pipeOk 0
  let st2 := bstat e.fdopenOk st1
  if e.fdopenOk then
    let cs := e.conds
    let st3 := batch (cs.take 9) st2
    let cs := cs.drop 9
    let st4 := bstat e.temp1Ok st3
    let st5 := if e.temp1Ok then batch (cs.take 5) st4 else st4
    let cs := if e.temp1Ok then cs.drop 5 else cs
    let st6 := bstat e.temp2Ok st5
    let st7 := if e.temp2Ok then batch (cs.take 8) st6 else st6
    let cs := if e.temp2Ok then cs.drop 8 else cs
    let st8 := bstat e.temp3Ok st7
    let st9 := if e.temp3Ok then batch (cs.take 16) st8 else st8
    let cs := if e.temp3Ok then cs.drop 16 else cs
    let st10 := bstat e.temp4Ok st9
    let st11 := if e.temp4Ok then batch (cs.take 6) st10 else st10
    let cs := if e.temp4Ok then cs.drop 6 else cs
    let st12 := bstat e.temp5Ok st11
    let st13 := if e.temp5Ok then batch (cs.take 5) st12 else st12
    { ranPipeSection := true,
      ranTempOuter := [true, true, true, true, true],
      ranTempInner := [e.temp1Ok, e.temp2Ok, e.temp3Ok, e.temp4Ok, e.temp5Ok],
      reachedEnd := true,
      t_status := st13,
      exit := st13 }
  else
    { ranPipeSection := false,
      ranTempOuter := [false, false, false, false, false],
      ranTempInner := [false, false, false, false, false],
      reachedEnd := false,
      t_status := st2,
      exit := 1 }

/-- Environment of one run of the `main` of utimensat.c (lines 45-105):
the first two assertion conditions (lines 51 and 53), the return value of
`open("./stat_c", O_RDWR)` (line 56), the outcomes of the 26 assertions of
lines 58-89, the condition `(time_t)(1LL<<32) == (1LL<<32)` (line 92), the
success of the large-timestamp `futimens` (line 93) and the outcomes of
the 3 assertions of lines 94-96. -/
structure UtimEnv where
  cond1 : Bool
  cond2 : Bool
  openRet : Int
  conds : List Bool
  y2038 : Bool
  futimensBigOk : Bool
  bigConds : List Bool
deriving DecidableEq

/-- Observable control flow of one run of the `main` of utimensat.c. -/
structure UtimRes where
  ranBody : Bool
  ranBigInner : Bool
  printedPass : Bool
  t_status : Nat
  exit : Nat
deriving DecidableEq

/-- Control flow of the `main` of utimensat.c (lines 45-105).  The guard at
line 56 is `if (!TEST(fd = open("./stat_c", O_RDWR))) return t_status;`: by
C truthiness the `TEST` fails only when `open` returns 0 (a failing `open`
returns -1, which is truthy), and only then does the early return fire.
Otherwise the body of 26 assertions runs, then the Y2038 `TEST` (line 92)
whose success guards the large-timestamp block (lines 93-97), then
`"Pass!"` is printed exactly when `t_status` is still 0 (lines 102-103)
and `t_status` is returned (line 104). -/
def utimensat_main (u : UtimEnv) : UtimRes :=
  let st1 := bstat u.cond1 0
  let st2 := bstat u.cond2 st1
  if u.openRet = 0 then
    let st3 := bstat false st2
    { ranBody := false,
      ranBigInner := false,
      printedPass := false,
      t_status := st3,
      exit := st3 }
  else
    let st3 := batch (u.conds.take 26) st2
    let st4 := bstat u.y2038 st3
    let st5 := if u.y2038 then bstat u.futimensBigOk st4 else st4
    let st6 := if u.y2038 && u.futimensBigOk then batch (u.bigConds.take 3) st5 else st5
    { ranBody := true,
      ranBigInner := u.y2038 && u.futimensBigOk,
      printedPass := decide (st6 = 0),
      t_status := st6,
      exit := st6 }

/-- The end-to-end scenario of the spec: 10 assertions of which only the
4th and the 7th fail. -/
def scenario10 : List Asrt :=
  [⟨true, "t.c:1".data, "a1 failed\n".data⟩,
   ⟨true, "t.c:2".data, "a2 failed\n".data⟩,
   ⟨true, "t.c:3".data, "a3 failed\n".data⟩,
   ⟨false, "t.c:4".data, "a4 failed\n".data⟩,
   ⟨true, "t.c:5".data, "a5 failed\n".data⟩,
   ⟨true, "t.c:6".data, "a6 failed\n".data⟩,
   ⟨false, "t.c:7".data, "a7 failed\n".data⟩,
   ⟨true, "t.c:8".data, "a8 failed\n".data⟩,
   ⟨true, "t.c:9".data, "a9 failed\n".data⟩,
   ⟨true, "t.c:10".data, "a10 failed\n".data⟩]

/-- File descriptor written by `t_printf`: `write(1, buf, n)` (fscanf.c
line 33, utimensat.c line 39). -/
def t_printf_fd : Nat := 1

/-- File descriptor of the primary output stream: standard output, used by
the final `printf` of fscanf.c (line 161) and the `"Pass!"` banner of
utimensat.c (line 103). -/
def primary_out_fd : Nat := 1

/-- File descriptor written by the `t_error` of test.h:
`fprintf(stderr, ...)` (test.h line 9). -/
def testh_t_error_fd : Nat := 2

/-- The occurrence test `containsSeg` is exactly the existence of a
decomposition `l = p ++ pat ++ q`. -/
theorem containsSeg_iff (pat l : List Char) :
    containsSeg pat l = true ↔ ∃ p q, l = p ++ pat ++ q := by
  unfold containsSeg
  rw [List.any_eq_true]
  constructor
  · rintro ⟨i, _, heq⟩
    rw [decide_eq_true_eq] at heq
    refine ⟨l.take i, (l.drop i).drop pat.length, ?_⟩
    calc l = l.take i ++ l.drop i := (List.take_append_drop i l).symm
    _ = l.take i ++ ((l.drop i).take pat.length ++ (l.drop i).drop pat.length) := by
        rw [List.take_append_drop pat.length (l.drop i)]
    _ = l.take i ++ pat ++ (l.drop i).drop pat.length := by
        rw [heq, List.append_assoc]
  · rintro ⟨p, q, rfl⟩
    refine ⟨p.length, ?_, ?_⟩
    · rw [List.mem_range]
      simp [List.length_append]
      omega
    · rw [decide_eq_true_eq, List.append_assoc, List.drop_left, List.take_left]

/-- A passing assertion leaves the state untouched. -/
theorem step_pass (s : HSt) (a : Asrt) (h : a.cond = true) : step s a = s := by
  simp [step, TEST, h]

/-- A failing assertion drives `t_status` to 1 and appends its diagnostic
bytes to the output. -/
theorem step_fail (s : HSt) (a : Asrt) (h : a.cond = false) :
    step s a = ⟨1, s.out ++ diagOf a⟩ := by
  simp [step, TEST, h, t_error, t_printf, diagOf]

/-- Unfolding one step of a run. -/
theorem runTests_cons (a : Asrt) (t : List Asrt) (s : HSt) :
    runTests (a :: t) s = runTests t (step s a) := rfl

/-- Failure count of a run with one more assertion in front. -/
theorem countFails_cons (a : Asrt) (t : List Asrt) :
    countFails (a :: t) = (if a.cond then 0 else 1) + countFails t := by
  cases h : a.cond <;> simp [countFails, h, Nat.add_comm]

/-- The final `t_status` of a run is that of the initial state when every
assertion passed, and 1 otherwise. -/
theorem runTests_status (l : List Asrt) (s : HSt) :
    (runTests l s).t_status = if countFails l = 0 then s.t_status else 1 := by
  induction l generalizing s with
  | nil => simp [runTests, countFails]
  | cons a t ih =>
    rw [runTests_cons]
    cases h : a.cond with
    | true =>
      rw [step_pass s a h, ih]
      simp [countFails_cons, h]
    | false =>
      rw [step_fail s a h, ih]
      simp [countFails_cons, h]

/-- The output of a run is the initial output followed by the diagnostics
of the failed assertions, in order. -/
theorem runTests_out (l : List Asrt) (s : HSt) :
    (runTests l s).out
      = s.out ++ ((l.filter (fun a => !a.cond)).map diagOf).flatten := by
  induction l generalizing s with
  | nil => simp [runTests]
  | cons a t ih =>
    rw [runTests_cons]
    cases h : a.cond with
    | true =>
      rw [step_pass s a h, ih]
      simp [h]
    | false =>
      rw [step_fail s a h, ih]
      simp [h, List.append_assoc]

/-- Line counting distributes over concatenation. -/
theorem countLines_append (x y : List Char) :
    countLines (x ++ y) = countLines x + countLines y := by
  simp [countLines, List.filter_append]

/-- Line counting of one leading character. -/
theorem countLines_cons (c : Char) (l : List Char) :
    countLines (c :: l) = (if c == '\n' then 1 else 0) + countLines l := by
  simp only [countLines, List.filter_cons]
  split <;> simp [Nat.add_comm]

/-- Line counting of a flattened list of chunks. -/
theorem countLines_flatten (ls : List (List Char)) :
    countLines ls.flatten = (ls.map countLines).sum := by
  induction ls with
  | nil => simp [countLines]
  | cons x t ih => simp [List.flatten_cons, countLines_append, ih]

/-- A message that fits the buffer is written unmodified. -/
theorem t_printf_bytes_small (m : List Char) (h : m.length < 512) :
    t_printf_bytes (some m) = m := by
  simp [t_printf_bytes, BUFSIZE, h]

/-- Dropping exactly the length of the first chunk of a concatenation. -/
theorem drop_append_at (l1 l2 : List Char) (n : Nat) (h : l1.length = n) :
    (l1 ++ l2).drop n = l2 := by
  subst h
  exact List.drop_left l1 l2

/-- Sum of a list of ones. -/
theorem sum_ones (l : List Nat) (h : ∀ x ∈ l, x = 1) : l.sum = l.length := by
  induction l with
  | nil => rfl
  | cons x t ih =>
    have hx := h x (by simp)
    have ht := ih fun y hy => h y (by simp [hy])
    simp only [List.sum_cons, List.length_cons, hx, ht]
    omega

/-- C1: a harness run of N assertions of which K fail exits with status 0
when K = 0 and exactly 1 when K >= 1, and in the `main` of fscanf.c and of
utimensat.c the exit status equals the final value of `t_status` on every
path, the early returns included. -/
theorem C1_exit_status (l : List Asrt) (e : FscanfEnv) (u : UtimEnv) :
    mainExit l = (if countFails l = 0 then 0 else 1) ∧
    (fscanf_main e).exit = (fscanf_main e).t_status ∧
    (utimensat_main u).exit = (utimensat_main u).t_status := by
  refine ⟨?_, ?_, ?_⟩
  · rw [mainExit, runTests_status]
    simp [initSt]
  · cases h : e.fdopenOk <;> simp [fscanf_main, h, bstat]
  · by_cases h : u.openRet = 0 <;> simp [utimensat_main, h, bstat]

/-- C2: `t_status` starts at 0, every failed assertion sets it to 1, and it
is never reset: `t_printf` — the only writer — always writes 1, and no
sequence of further assertions can bring it back to 0. -/
theorem C2_status_monotonic :
    initSt.t_status = 0 ∧
    (∀ s a, a.cond = false → (step s a).t_status = 1) ∧
    (∀ r s, s.t_status = 1 → (t_printf r s).t_status = 1) ∧
    (∀ l s, s.t_status = 1 → (runTests l s).t_status = 1) := by
  refine ⟨rfl, ?_, ?_, ?_⟩
  · intro s a h
    rw [step_fail s a h]
  · intro r s _
    rfl
  · intro l s h
    rw [runTests_status, h]
    split <;> rfl

/-- Concrete instance of `C2_status_monotonic`: a failed assertion on the
initial state records the failure, and neither a later `t_printf` nor a
later passing assertion clears it. -/
theorem C2_witness :
    (step initSt ⟨false, "f.c:1".data, "x\n".data⟩).t_status = 1 ∧
    (t_printf none ⟨1, []⟩).t_status = 1 ∧
    (runTests [⟨true, [], []⟩] ⟨1, []⟩).t_status = 1 :=
  ⟨C2_status_monotonic.2.1 initSt ⟨false, "f.c:1".data, "x\n".data⟩ rfl,
   C2_status_monotonic.2.2.1 none ⟨1, []⟩ rfl,
   C2_status_monotonic.2.2.2 [⟨true, [], []⟩] ⟨1, []⟩ rfl⟩

/-- C9: an assertion with a true condition yields true and leaves the
harness state untouched; one with a false condition yields false, sets
`t_status` to 1 and forwards its location-prefixed context to the
formatter, whose bytes are appended to the output. -/
theorem C9_assertion_behavior (cond : Bool) (loc body : List Char) (s : HSt) :
    (cond = true → TEST cond loc body s = (true, s)) ∧
    (cond = false →
      (TEST cond loc body s).1 = false ∧
      (TEST cond loc body s).2.t_status = 1 ∧
      (TEST cond loc body s).2.out
        = s.out ++ t_printf_bytes (some (t_error_msg loc body))) := by
  constructor
  · intro h
    simp [TEST, h]
  · intro h
    simp [TEST, h, t_error, t_printf]

/-- Concrete instance of `C9_assertion_behavior` at both condition
values. -/
theorem C9_witness :
    TEST true "t.c:9".data "m\n".data initSt = (true, initSt) ∧
    (TEST false "t.c:9".data "m\n".data initSt).1 = false :=
  ⟨(C9_assertion_behavior true "t.c:9".data "m\n".data initSt).1 rfl,
   ((C9_assertion_behavior false "t.c:9".data "m\n".data initSt).2 rfl).1⟩

/-- C10: `t_printf` sets `t_status` to 1 unconditionally — also when the
render fails and zero bytes are written — so whenever a run has emitted any
diagnostic bytes its exit status is nonzero. -/
theorem C10_status_before_io (r : Option (List Char)) (s : HSt)
    (l : List Asrt) :
    (t_printf r s).t_status = 1 ∧
    (t_printf none s).out = s.out ∧
    ((runTests l initSt).out ≠ [] → mainExit l ≠ 0) := by
  refine ⟨rfl, by simp [t_printf, t_printf_bytes], ?_⟩
  intro hout h0
  rw [mainExit, runTests_status] at h0
  by_cases hk : countFails l = 0
  · rw [countFails] at hk
    have hfil : l.filter (fun a => !a.cond) = [] := List.length_eq_zero.mp hk
    have hrun := runTests_out l initSt
    rw [hfil] at hrun
    simp [initSt] at hrun
    exact hout hrun
  · rw [if_neg hk] at h0
    exact one_ne_zero h0

/-- Concrete instance of `C10_status_before_io`: a run with one failed
assertion has nonempty diagnostic output and nonzero exit status. -/
theorem C10_witness :
    (runTests [⟨false, "f.c:10".data, "oops\n".data⟩] initSt).out ≠ [] ∧
    mainExit [⟨false, "f.c:10".data, "oops\n".data⟩] ≠ 0 := by
  have h : (runTests [⟨false, "f.c:10".data, "oops\n".data⟩] initSt).out ≠ [] := by
    decide
  exact ⟨h, (C10_status_before_io none initSt _).2.2 h⟩

/-- C3: one `t_printf` call writes at most 512 bytes, and whenever the
rendered message is at least the buffer size the written bytes are exactly
512 and end with the three `'.'` marker characters immediately before the
final terminating newline. -/
theorem C3_truncation (r : Option (List Char)) (msg : List Char)
    (h : 512 ≤ msg.length) :
    (t_printf_bytes r).length ≤ 512 ∧
    t_printf_bytes (some msg) = msg.take 508 ++ "...\n".data ∧
    (t_printf_bytes (some msg)).length = 512 ∧
    (t_printf_bytes (some msg)).drop 508 = "...\n".data := by
  have hnot : ¬ msg.length < BUFSIZE := by
    simp only [BUFSIZE]
    omega
  have h2 : t_printf_bytes (some msg) = msg.take 508 ++ "...\n".data := by
    simp only [t_printf_bytes]
    rw [if_neg hnot]
    rfl
  have htake : (msg.take 508).length = 508 := by
    rw [List.length_take]
    omega
  refine ⟨?_, h2, ?_, ?_⟩
  · cases r with
    | none => simp [t_printf_bytes]
    | some m =>
      simp only [t_printf_bytes, BUFSIZE]
      by_cases hm : m.length < 512
      · rw [if_pos hm]
        omega
      · rw [if_neg hm]
        simp only [List.length_append, List.length_take, List.length_cons,
          List.length_nil]
        omega
  · rw [h2, List.length_append, htake]
    rfl
  · rw [h2]
    exact drop_append_at (msg.take 508) "...\n".data 508 htake

/-- Concrete instance of `C3_truncation`: a 600-character render is cut to
512 bytes ending in the marker and the newline. -/
theorem C3_witness :
    512 ≤ (List.replicate 600 'a').length ∧
    (t_printf_bytes (some (List.replicate 600 'a'))).length = 512 ∧
    (t_printf_bytes (some (List.replicate 600 'a'))).drop 508 = "...\n".data := by
  have h : 512 ≤ (List.replicate 600 'a').length := by
    rw [List.length_replicate]
    omega
  exact ⟨h, (C3_truncation none (List.replicate 600 'a') h).2.2.1,
    (C3_truncation none (List.replicate 600 'a') h).2.2.2⟩

/-- C4: when every context renders as one newline-terminated line whose
location-prefixed message fits the buffer, a run emits exactly one
diagnostic line per failed assertion — each carrying its `"<file>:<line>"`
prefix — and nothing for passing ones; in particular the scenario of 10
assertions in which only the 4th and the 7th fail emits exactly 2 lines
and exits with status 1. -/
theorem C4_diag_lines (l : List Asrt)
    (h : ∀ a ∈ l, countLines a.loc = 0 ∧ countLines a.body = 1 ∧
      (t_error_msg a.loc a.body).length < 512) :
    countLines (runTests l initSt).out = countFails l ∧
    (∀ a ∈ l, diagOf a = a.loc ++ (':' :: ' ' :: a.body)) ∧
    countLines (runTests scenario10 initSt).out = 2 ∧
    mainExit scenario10 = 1 := by
  have hdiag : ∀ a ∈ l, diagOf a = a.loc ++ (':' :: ' ' :: a.body) := by
    intro a ha
    rw [diagOf, t_printf_bytes_small _ (h a ha).2.2]
    rfl
  refine ⟨?_, hdiag, by decide, by decide⟩
  have hone : ∀ a ∈ l, countLines (diagOf a) = 1 := by
    intro a ha
    rw [hdiag a ha, countLines_append, countLines_cons, countLines_cons,
      (h a ha).1, (h a ha).2.1]
    rfl
  rw [runTests_out, initSt]
  simp only [List.nil_append]
  rw [countLines_flatten, List.map_map, countFails]
  have : ∀ x ∈ (l.filter (fun a => !a.cond)).map (countLines ∘ diagOf), x = 1 := by
    intro x hx
    rw [List.mem_map] at hx
    obtain ⟨a, ha, rfl⟩ := hx
    exact hone a (List.mem_of_mem_filter ha)
  rw [sum_ones _ this, List.length_map]

/-- Concrete instance of `C4_diag_lines` at the 10-assertion scenario. -/
theorem C4_witness :
    countLines (runTests scenario10 initSt).out = countFails scenario10 ∧
    countFails scenario10 = 2 := by
  refine ⟨(C4_diag_lines scenario10 ?_).1, by decide⟩
  decide

/-- C5 counterexample: in fscanf.c, when the `fdopen` of the pipe reader
fails (line 66) the program closes the pipe and returns at line 71: none of
the five independent temp-file test blocks that follow is executed and the
end of `main` is never reached — the program does abort early, contrary to
the claim. -/
theorem C5_counterexample :
    ¬ ((fscanf_main (FscanfEnv.mk true false true true true true true [])).reachedEnd = true ∧
       (fscanf_main (FscanfEnv.mk true false true true true true true [])).ranTempOuter
         = [true, true, true, true, true]) := by
  decide

/-- C5 amended: once the pipe stream is acquired (`fdopen` succeeded), a
failed temp-file acquisition only skips the dependent assertions of its own
block under the `if (f)` guard while every following block still executes
and the end of `main` is reached; but a failed initial stream acquisition
aborts the run early (the `return 1` at fscanf.c line 71, and in
utimensat.c line 56 the early return fires exactly when `open` returns
0). -/
theorem C5_amended (e : FscanfEnv) (u : UtimEnv) (he : e.fdopenOk = true) :
    (fscanf_main e).reachedEnd = true ∧
    (fscanf_main e).ranTempOuter = [true, true, true, true, true] ∧
    (fscanf_main e).ranTempInner
      = [e.temp1Ok, e.temp2Ok, e.temp3Ok, e.temp4Ok, e.temp5Ok] ∧
    ((utimensat_main u).ranBody = true ↔ u.openRet ≠ 0) := by
  refine ⟨?_, ?_, ?_, ?_⟩
  · simp [fscanf_main, he]
  · simp [fscanf_main, he]
  · simp [fscanf_main, he]
  · by_cases h : u.openRet = 0 <;> simp [utimensat_main, h]

/-- Concrete instance of `C5_amended`: with the stream acquired but the
first temp file failing, the run still reaches the end, every block is
entered, and only the first inner body is skipped. -/
theorem C5_witness :
    (fscanf_main (FscanfEnv.mk true true false true true true true [])).reachedEnd = true ∧
    (fscanf_main (FscanfEnv.mk true true false true true true true [])).ranTempOuter
      = [true, true, true, true, true] ∧
    (fscanf_main (FscanfEnv.mk true true false true true true true [])).ranTempInner
      = [(FscanfEnv.mk true true false true true true true []).temp1Ok,
         (FscanfEnv.mk true true false true true true true []).temp2Ok,
         (FscanfEnv.mk true true false true true true true []).temp3Ok,
         (FscanfEnv.mk true true false true true true true []).temp4Ok,
         (FscanfEnv.mk true true false true true true true []).temp5Ok] ∧
    ((utimensat_main (UtimEnv.mk true true (-1) [] true true [])).ranBody = true ↔
      (UtimEnv.mk true true (-1) [] true true []).openRet ≠ 0) :=
  C5_amended (FscanfEnv.mk true true false true true true true [])
    (UtimEnv.mk true true (-1) [] true true []) rfl

/-- C6 counterexample: at a call site shaped like
`TESTVAL(st.st_atim.tv_sec,>=,t)` (utimensat.c line 76), here with actual
value 5 and expected value `t = 100`, the assertion fails but the emitted
bytes contain only the source text `"t"` of the expected expression — the
expected value `100` appears nowhere in the diagnostic. -/
theorem C6_counterexample :
    (TESTVAL "st.st_atim.tv_sec".data 5 RelOp.ge "t".data 100
      "src/apps/libc/c/utimensat/utimensat.c:76".data initSt).1 = false ∧
    ¬ ∃ p q, (TESTVAL "st.st_atim.tv_sec".data 5 RelOp.ge "t".data 100
      "src/apps/libc/c/utimensat/utimensat.c:76".data initSt).2.out
        = p ++ intText 100 ++ q := by
  constructor
  · decide
  · intro hex
    have h1 := (containsSeg_iff (intText 100)
      (TESTVAL "st.st_atim.tv_sec".data 5 RelOp.ge "t".data 100
        "src/apps/libc/c/utimensat/utimensat.c:76".data initSt).2.out).mpr hex
    have h2 : containsSeg (intText 100)
      (TESTVAL "st.st_atim.tv_sec".data 5 RelOp.ge "t".data 100
        "src/apps/libc/c/utimensat/utimensat.c:76".data initSt).2.out = false := by
      decide
    exact Bool.noConfusion (h1.symm.trans h2)

/-- C6 amended: `TESTVAL` passes exactly when the relational operator holds
between the actual and the expected scalar; on mismatch its context string
contains the actual value (rendered by `%jd`) and the source text of the
expected expression — which is the expected value itself whenever the call
site passes a numeric literal.  In particular `TESTVAL(5,>=,3)` passes and
`TESTVAL(2,>=,3)` fails. -/
theorem C6_amended (vText : List Char) (v : Int) (op : RelOp)
    (xText : List Char) (x : Int) (loc : List Char) (s : HSt) :
    ((TESTVAL vText v op xText x loc s).1 = op.holds v x) ∧
    (op.holds v x = false →
      (TESTVAL vText v op xText x loc s).2.t_status = 1 ∧
      (∃ p q, testval_msg vText op xText v = p ++ intText v ++ q) ∧
      (∃ p q, testval_msg vText op xText v = p ++ xText ++ q)) ∧
    (TESTVAL "5".data 5 RelOp.ge "3".data 3 loc s).1 = true ∧
    (TESTVAL "2".data 2 RelOp.ge "3".data 3 loc s).1 = false := by
  refine ⟨?_, ?_, by simp [TESTVAL, TEST, RelOp.holds],
    by simp [TESTVAL, TEST, RelOp.holds]⟩
  · cases h : op.holds v x <;> simp [TESTVAL, TEST, h]
  · intro h
    refine ⟨?_, ?_, ?_⟩
    · simp [TESTVAL, TEST, h, t_error, t_printf]
    · exact ⟨vText ++ (' ' :: op.text) ++ (' ' :: xText) ++ " failed: ".data,
        ['\n'], by simp [testval_msg]⟩
    · exact ⟨vText ++ (' ' :: op.text) ++ [' '],
        " failed: ".data ++ intText v ++ ['\n'], by simp [testval_msg]⟩

/-- Concrete instance of `C6_amended`: `TESTVAL(2,>=,3)` fails, records the
failure, and its context contains the actual value 2. -/
theorem C6_witness :
    (TESTVAL "2".data 2 RelOp.ge "3".data 3 "u.c:1".data initSt).2.t_status = 1 ∧
    (∃ p q, testval_msg "2".data RelOp.ge "3".data 2 = p ++ intText 2 ++ q) := by
  have h := (C6_amended "2".data 2 RelOp.ge "3".data 3 "u.c:1".data initSt).2.1
    (by decide)
  exact ⟨h.1, h.2.1⟩

/-- C7: `TEST_S` passes exactly when the two byte sequences are equal; on
mismatch it records the failure and its context contains both strings
verbatim; concretely, `TEST_S("abc","abc")` passes while
`TEST_S("abc","abd")` fails and the bytes it writes contain both `"abc"`
and `"abd"`. -/
theorem C7_test_s (sv xv m loc : List Char) (st : HSt) :
    ((TEST_S sv xv m loc st).1 = true ↔ sv = xv) ∧
    (sv ≠ xv →
      (TEST_S sv xv m loc st).2.t_status = 1 ∧
      (∃ p q, test_s_msg sv xv m = p ++ sv ++ q) ∧
      (∃ p q, test_s_msg sv xv m = p ++ xv ++ q)) ∧
    (TEST_S "abc".data "abc".data "m".data "f.c:1".data initSt).1 = true ∧
    ((TEST_S "abc".data "abd".data "m".data "f.c:1".data initSt).1 = false ∧
      (∃ p q, (TEST_S "abc".data "abd".data "m".data "f.c:1".data initSt).2.out
        = p ++ "abc".data ++ q) ∧
      (∃ p q, (TEST_S "abc".data "abd".data "m".data "f.c:1".data initSt).2.out
        = p ++ "abd".data ++ q)) := by
  refine ⟨?_, ?_, by decide, by decide, ?_, ?_⟩
  · by_cases h : sv = xv <;> simp [TEST_S, TEST, h]
  · intro h
    refine ⟨?_, ?_, ?_⟩
    · simp [TEST_S, TEST, h, t_error, t_printf]
    · exact ⟨"[".data, "] != [".data ++ xv ++ "] (".data ++ m ++ ")\n".data,
        by simp [test_s_msg]⟩
    · exact ⟨"[".data ++ sv ++ "] != [".data,
        "] (".data ++ m ++ ")\n".data, by simp [test_s_msg]⟩
  · rw [← containsSeg_iff]
    decide
  · rw [← containsSeg_iff]
    decide

/-- Concrete instance of `C7_test_s`: `TEST_S("abc","abd")` records the
failure and its context contains both strings. -/
theorem C7_witness :
    (TEST_S "abc".data "abd".data "m".data "f.c:1".data initSt).2.t_status = 1 ∧
    (∃ p q, test_s_msg "abc".data "abd".data "m".data = p ++ "abd".data ++ q) := by
  have h := (C7_test_s "abc".data "abd".data "m".data "f.c:1".data initSt).2.1
    (by decide)
  exact ⟨h.1, h.2.2⟩

/-- C8 counterexample: `t_printf` writes its diagnostics with
`write(1, buf, n)`, file descriptor 1 — the very stream the `printf` calls
of the programs use: the diagnostic stream IS the primary output stream,
contrary to the claim that they are always distinct. -/
theorem C8_counterexample : t_printf_fd = primary_out_fd := rfl

/-- C8 amended: in fscanf.c and utimensat.c the diagnostics of `t_printf`
go to file descriptor 1, the same stream as the primary output, so the two
are not distinguishable by stream; only the `t_error` of test.h writes to
stderr, which is distinct from the primary output stream. -/
theorem C8_amended :
    t_printf_fd = primary_out_fd ∧ testh_t_error_fd ≠ primary_out_fd := by
  exact ⟨rfl, by decide⟩

end LibcTest
